import Mathlib

/-!
Shallow embedding of the admission-portal admin registration layer
(`src/admission/admin.py`).  The record types live in the application's
models module, which is not part of the provided source; their structures
are therefore modelled from the specification's data-model section.  The
derived-column helpers, bulk actions and URL construction are translated
directly from `admin.py`.  Record stores are modelled as Lean lists, the
selected set of a bulk action as a predicate on primary keys, and HTML
rendering as plain string construction mirroring the `format_html`
templates of the source.
-/

namespace Admission

/-- Modelled from the spec: the stored-file value held by an `ApplicationFile`
(`models.py` is not in the provided source); `url` is the address the admin
preview links to, mirroring Django's `FieldFile.url`. -/
structure FieldFile where
  url : String
deriving DecidableEq

/-- Modelled from the spec: a Department record — code, name, seat capacity,
total credits, per-credit fee (`models.py` is not in the provided source). -/
structure Department where
  id : Nat
  code : String
  name : String
  seats : Nat
  total_credits : Nat
  per_credit_fee : Int
deriving DecidableEq

/-- Modelled from the spec: an Application record — personal fields, academic
fields (department reference, program, prior education, GPA), status, created
and updated timestamps, free-text notes (`models.py` is not in the provided
source).  The numeric GPA is modelled as an integer-scaled value; timestamps
as naturals. -/
structure Application where
  id : Nat
  full_name : String
  email : String
  phone : String
  address : String
  department_id : Nat
  program : String
  previous_education : String
  cgpa : Int
  status : String
  applied_at : Nat
  updated_at : Nat
  notes : String
deriving DecidableEq

/-- Modelled from the spec: an ApplicationFile record, owned by one
Application — stored-file reference (possibly empty, hence `Option`) and an
upload timestamp (`models.py` is not in the provided source). -/
structure ApplicationFile where
  id : Nat
  application_id : Nat
  file : Option FieldFile
  uploaded_at : Nat
deriving DecidableEq

/-- Modelled from the spec: a Payment record belonging to exactly one
Application — amount, currency, status, payment method, transaction id,
paid/created timestamps (`models.py` is not in the provided source).  The
decimal amount is modelled as an integer-scaled value. -/
structure Payment where
  id : Nat
  application_id : Nat
  amount : Int
  currency : String
  status : String
  payment_method : String
  transaction_id : String
  paid_at : Nat
  created_at : Nat
deriving DecidableEq

/-- Modelled from the spec: the closed status enumeration of
`Application.status`: pending, under_review, approved, rejected. -/
def statusChoices : List String := ["pending", "under_review", "approved", "rejected"]

/-- The record store this layer reads and updates: the Application rows with
their child ApplicationFile and Payment rows. -/
structure AdminState where
  applications : List Application
  files : List ApplicationFile
  payments : List Payment
deriving DecidableEq

/-- Modelled: Django's `reverse` URL resolution, an injective encoding of the
route name and its positional arguments into a URL string. -/
def reverse (name : String) (args : List Nat) : String :=
  name ++ String.join (args.map (fun n => "/" ++ toString n))

/-- The `format_html` anchor template used throughout `admin.py`:
the source interpolates a URL and a label into an `<a>` element. -/
def format_html_link (url label : String) : String :=
  "<a href=\"" ++ url ++ "\">" ++ label ++ "</a>"

/-- Django back-reference `obj.application_set` on a Department: the
Application rows whose foreign key references `obj`. -/
def application_set (apps : List Application) (obj : Department) : List Application :=
  apps.filter (fun a => a.department_id == obj.id)

/-- `DepartmentAdmin.application_count` (`admin.py` lines 14–21): counts
`obj.application_set`, builds the changelist URL with the
`department__id__exact` filter parameter, and renders an anchor whose label
is the count. -/
def application_count (apps : List Application) (obj : Department) : String :=
  let count := (application_set apps obj).length
  let url := reverse "admin:appname_application_changelist" []
      ++ "?department__id__exact=" ++ toString obj.id
  format_html_link url (toString count)

/-- `ApplicationFileInline.fields` (`admin.py` line 35). -/
def inline_fields : List String := ["file", "file_preview", "uploaded_at"]

/-- `ApplicationFileInline.readonly_fields` (`admin.py` line 33). -/
def inline_readonly_fields : List String := ["uploaded_at", "file_preview"]

/-- The fields the inline editor may write: declared fields minus the
read-only ones. -/
def inline_editable_fields : List String :=
  inline_fields.filter (fun f => !(inline_readonly_fields.contains f))

/-- `ApplicationFileInline.file_preview` (`admin.py` lines 37–41): an anchor
to the stored file's URL when a file is attached, a dash otherwise. -/
def file_preview (obj : ApplicationFile) : String :=
  match obj.file with
  | some f => "<a href=\"" ++ f.url ++ "\" target=\"_blank\">View File</a>"
  | none => "-"

/-- Modelled from the spec: the framework's inline save writes a submitted
value into a field only when that field is declared editable, i.e. listed in
`fields` and not in `readonly_fields` (the save machinery itself belongs to
the external framework, not to `admin.py`). -/
def inline_edit (f : ApplicationFile) (newFile : Option FieldFile) (newUploadedAt : Nat) :
    ApplicationFile :=
  let f1 := if inline_editable_fields.contains "file" then { f with file := newFile } else f
  if inline_editable_fields.contains "uploaded_at" then { f1 with uploaded_at := newUploadedAt }
  else f1

/-- Django back-reference `obj.payment_set` on an Application. -/
def payment_set (payments : List Payment) (obj : Application) : List Payment :=
  payments.filter (fun p => p.application_id == obj.id)

/-- Django back-reference `obj.applicationfile_set` on an Application. -/
def applicationfile_set (files : List ApplicationFile) (obj : Application) :
    List ApplicationFile :=
  files.filter (fun f => f.application_id == obj.id)

/-- Django `queryset.aggregate(total=Sum('amount'))['total']`: `none` on an
empty queryset, otherwise the sum of the amounts. -/
def aggregate_sum_amount (ps : List Payment) : Option Int :=
  if ps.isEmpty then none else some ((ps.map Payment.amount).sum)

/-- Python `x or 0` applied to the aggregate result: `None` and a zero total
both collapse to `0`; any other total passes through. -/
def py_or_zero (x : Option Int) : Int :=
  match x with
  | none => 0
  | some v => if v == 0 then 0 else v

/-- The positive payment indicator of `has_payment`: a green check mark with
the dollar total interpolated, as in `admin.py` lines 73–76. -/
def greenSpan (total : Int) : String :=
  "<span style=\"color: green;\">✓ ($" ++ toString total ++ ")</span>"

/-- The negative payment indicator of `has_payment` (`admin.py` line 77). -/
def redSpan : String :=
  "<span style=\"color: red;\">✗</span>"

/-- `ApplicationAdmin.has_payment` (`admin.py` lines 69–78): filters the
related payments to status `completed`; when any exist, renders the green
indicator with the aggregated total (run through Python's `or 0`), otherwise
renders the red indicator alone. -/
def has_payment (payments : List Payment) (obj : Application) : String :=
  let ps := (payment_set payments obj).filter (fun p => p.status == "completed")
  if !ps.isEmpty then
    let total_paid := py_or_zero (aggregate_sum_amount ps)
    greenSpan total_paid
  else
    redSpan

/-- `ApplicationAdmin.file_count` (`admin.py` lines 80–82). -/
def file_count (files : List ApplicationFile) (obj : Application) : Nat :=
  (applicationfile_set files obj).length

/-- Django `queryset.update(status=t)` over the selected rows: the queryset a
bulk action receives is the set of selected primary keys, modelled as the
predicate `sel`; every row whose key is selected has its status overwritten
to `t`, every other row is untouched. -/
def queryset_update_status (apps : List Application) (sel : Nat → Bool) (t : String) :
    List Application :=
  apps.map (fun a => if sel a.id then { a with status := t } else a)

/-- `ApplicationAdmin.mark_as_pending` (`admin.py` lines 84–85). -/
def mark_as_pending (st : AdminState) (sel : Nat → Bool) : AdminState :=
  { st with applications := queryset_update_status st.applications sel "pending" }

/-- `ApplicationAdmin.mark_as_under_review` (`admin.py` lines 88–89). -/
def mark_as_under_review (st : AdminState) (sel : Nat → Bool) : AdminState :=
  { st with applications := queryset_update_status st.applications sel "under_review" }

/-- `ApplicationAdmin.mark_as_approved` (`admin.py` lines 92–93). -/
def mark_as_approved (st : AdminState) (sel : Nat → Bool) : AdminState :=
  { st with applications := queryset_update_status st.applications sel "approved" }

/-- `ApplicationAdmin.mark_as_rejected` (`admin.py` lines 96–97). -/
def mark_as_rejected (st : AdminState) (sel : Nat → Bool) : AdminState :=
  { st with applications := queryset_update_status st.applications sel "rejected" }

/-- Django foreign-key access `obj.application`: look the referenced
Application up by primary key; `none` models a dangling reference. -/
def get_application (apps : List Application) (i : Nat) : Option Application :=
  apps.find? (fun a => a.id == i)

/-- `PaymentAdmin.application_link` (`admin.py` lines 116–119): an anchor to
the owning Application's change view labelled with its full name. -/
def application_link (apps : List Application) (obj : Payment) : Option String :=
  (get_application apps obj.application_id).map (fun a =>
    format_html_link (reverse "admin:appname_application_change" [a.id]) a.full_name)

/-- Modelled from the spec: the in-place status edit offered by
`list_editable = ('status',)` on the Application changelist (`admin.py`
line 54) — the framework writes the submitted status into the row with the
given primary key. -/
def inline_status_edit (st : AdminState) (i : Nat) (t : String) : AdminState :=
  { st with applications :=
      st.applications.map (fun a => if a.id == i then { a with status := t } else a) }

/-- The step relation on the record store induced by this layer: one of the
four bulk actions applied to some selected set, or one in-place status edit
to one of the declared status choices. -/
def AdminStep (st st' : AdminState) : Prop :=
  (∃ sel, st' = mark_as_pending st sel) ∨
  (∃ sel, st' = mark_as_under_review st sel) ∨
  (∃ sel, st' = mark_as_approved st sel) ∨
  (∃ sel, st' = mark_as_rejected st sel) ∨
  (∃ i t, t ∈ statusChoices ∧ st' = inline_status_edit st i t)

/-- Claim-side notion: the related Payments of an Application whose status is
`completed`, stated as a single filter over the payment store. -/
def completed_payments_of (payments : List Payment) (obj : Application) : List Payment :=
  payments.filter (fun p => p.application_id == obj.id && p.status == "completed")

/-- Claim-side notion: the sum of the amounts of the related completed
Payments. -/
def completed_total (payments : List Payment) (obj : Application) : Int :=
  ((completed_payments_of payments obj).map Payment.amount).sum

/-- Claim-side notion: the number of Application rows referencing a
Department. -/
def referencing_count (apps : List Application) (obj : Department) : Nat :=
  apps.countP (fun a => a.department_id == obj.id)

/-- Claim-side notion: the number of ApplicationFile rows related to an
Application. -/
def related_file_count (files : List ApplicationFile) (obj : Application) : Nat :=
  files.countP (fun f => f.application_id == obj.id)

/-- Referential integrity of the record store: every Payment's foreign key
resolves to an Application row. -/
def WellFormed (st : AdminState) : Prop :=
  ∀ p ∈ st.payments, ∃ a ∈ st.applications, a.id = p.application_id

/-- Concrete Application fixture used by the evaluation theorems. -/
def app0 : Application :=
  { id := 1, full_name := "Alice Rahman", email := "alice@example.com", phone := "017",
    address := "Dhaka", department_id := 1, program := "BSc", previous_education := "HSC",
    cgpa := 4, status := "pending", applied_at := 10, updated_at := 10, notes := "" }

/-- Concrete completed Payment of amount 100 related to `app0`. -/
def pay100 : Payment :=
  { id := 1, application_id := 1, amount := 100, currency := "USD", status := "completed",
    payment_method := "card", transaction_id := "t1", paid_at := 11, created_at := 11 }

/-- Concrete completed Payment of amount 50 related to `app0`. -/
def pay50 : Payment :=
  { id := 2, application_id := 1, amount := 50, currency := "USD", status := "completed",
    payment_method := "card", transaction_id := "t2", paid_at := 12, created_at := 12 }

/-- Concrete pending Payment of amount 75 related to `app0`. -/
def pay75 : Payment :=
  { id := 3, application_id := 1, amount := 75, currency := "USD", status := "pending",
    payment_method := "card", transaction_id := "t3", paid_at := 13, created_at := 13 }

/-- Concrete ApplicationFile fixture with an attached file. -/
def file0 : ApplicationFile :=
  { id := 1, application_id := 1, file := some { url := "/media/doc.pdf" }, uploaded_at := 5 }

/-- Concrete well-formed record store fixture. -/
def st0 : AdminState :=
  { applications := [app0], files := [file0], payments := [pay100, pay75] }

/-- The source's two-stage filter (`payment_set` then status) agrees with the
single claim-side filter `completed_payments_of`. -/
lemma completed_filter_eq (payments : List Payment) (obj : Application) :
    (payment_set payments obj).filter (fun p => p.status == "completed") =
      completed_payments_of payments obj := by
  induction payments with
  | nil => rfl
  | cons p ps ih =>
    by_cases h1 : p.application_id == obj.id <;> by_cases h2 : p.status == "completed" <;>
      simp_all [payment_set, completed_payments_of, List.filter_cons]

/-- Python's `or 0` is the identity on an actually present total. -/
lemma py_or_zero_some (v : Int) : py_or_zero (some v) = v := by
  by_cases h : v = 0 <;> simp [py_or_zero, h]

/-- Pointwise description of `queryset_update_status`: selected rows get the
target status, unselected rows are unchanged. -/
lemma forall2_queryset_update (apps : List Application) (sel : Nat → Bool) (t : String) :
    List.Forall₂
      (fun a b => (sel a.id = true → b = { a with status := t }) ∧ (sel a.id = false → b = a))
      apps (queryset_update_status apps sel t) := by
  induction apps with
  | nil => exact List.Forall₂.nil
  | cons a l ih =>
    refine List.Forall₂.cons ?_ ih
    by_cases h : sel a.id <;> simp [h]

/-- Every field of an Application other than `status` that
`queryset_update_status` leaves intact. -/
def preservesNonStatus (a b : Application) : Prop :=
  b.id = a.id ∧ b.full_name = a.full_name ∧ b.email = a.email ∧ b.phone = a.phone ∧
  b.address = a.address ∧ b.department_id = a.department_id ∧ b.program = a.program ∧
  b.previous_education = a.previous_education ∧ b.cgpa = a.cgpa ∧
  b.applied_at = a.applied_at ∧ b.updated_at = a.updated_at ∧ b.notes = a.notes

/-- `queryset_update_status` touches no field besides `status`. -/
lemma forall2_preserves (apps : List Application) (sel : Nat → Bool) (t : String) :
    List.Forall₂ preservesNonStatus apps (queryset_update_status apps sel t) := by
  induction apps with
  | nil => exact List.Forall₂.nil
  | cons a l ih =>
    refine List.Forall₂.cons ?_ ih
    by_cases h : sel a.id <;> simp [preservesNonStatus, h]

/-- An everywhere-selected status update keeps the updated row in the store. -/
lemma mem_queryset_update_of_mem (apps : List Application) (t : String) (a : Application)
    (ha : a ∈ apps) :
    { a with status := t } ∈ queryset_update_status apps (fun _ => true) t := by
  have h := List.mem_map_of_mem
    (fun x : Application => if (fun _ : Nat => true) x.id then { x with status := t } else x) ha
  simpa [queryset_update_status] using h

/-- The spec's worked example: an Application with completed Payments of 100
and 50 and a pending Payment of 75 renders the positive indicator with
total 150. -/
theorem has_payment_spec_example :
    has_payment [pay100, pay50, pay75] app0 = greenSpan 150 := by decide

/-- C1 — counterexample to the claim as stated: for an Application with no
related completed Payment (here `app0` against an empty payment store) the
cell is the bare negative indicator, whose text contains no digit at all, so
it does not display the amount 0 the claim asserts for that case. -/
theorem has_payment_zero_display_counterexample :
    has_payment [] app0 = redSpan ∧ ∀ c ∈ redSpan.data, c.isDigit = false := by
  exact ⟨rfl, by decide⟩

/-- C1 (amended) — `has_payment` renders the positive indicator iff at least
one related Payment has status completed; when one exists the displayed
amount equals the sum of the completed Payment amounts; when none exists the
bare negative indicator is rendered and no amount is displayed. -/
theorem has_payment_indicator_and_total (payments : List Payment) (obj : Application) :
    (completed_payments_of payments obj ≠ [] →
      has_payment payments obj = greenSpan (completed_total payments obj))
    ∧ (completed_payments_of payments obj = [] → has_payment payments obj = redSpan)
    ∧ (completed_payments_of payments obj ≠ [] ↔
        ∃ p ∈ payments, p.application_id = obj.id ∧ p.status = "completed") := by
  have hps := completed_filter_eq payments obj
  refine ⟨?_, ?_, ?_⟩
  · intro h
    have he : (completed_payments_of payments obj).isEmpty = false := by
      simp [List.isEmpty_iff, h]
    simp [has_payment, hps, he, aggregate_sum_amount, py_or_zero_some, completed_total]
  · intro h
    simp [has_payment, hps, h]
  · rw [completed_payments_of]
    rw [ne_eq, List.filter_eq_nil_iff]
    push_neg
    simp

/-- Closed instance of the amended C1 theorem on the concrete fixtures,
with its hypothesis discharged by evaluation. -/
theorem has_payment_indicator_and_total_witness :
    completed_payments_of [pay100, pay50, pay75] app0 ≠ [] ∧
    has_payment [pay100, pay50, pay75] app0 =
      greenSpan (completed_total [pay100, pay50, pay75] app0) :=
  ⟨by decide, (has_payment_indicator_and_total [pay100, pay50, pay75] app0).1 (by decide)⟩

/-- C9 — for an Application with no related completed Payment, `has_payment`
renders only the bare negative indicator, a string with no digit characters,
so no amount (in particular not 0) is displayed. -/
theorem has_payment_none_bare_negative (payments : List Payment) (obj : Application)
    (h : ¬ ∃ p ∈ payments, p.application_id = obj.id ∧ p.status = "completed") :
    has_payment payments obj = redSpan ∧ ∀ c ∈ redSpan.data, c.isDigit = false := by
  have hnil : completed_payments_of payments obj = [] := by
    rw [completed_payments_of, List.filter_eq_nil_iff]
    intro p hp
    simp only [Bool.and_eq_true, beq_iff_eq, not_and]
    intro h1 h2
    exact h ⟨p, hp, h1, h2⟩
  have hps := completed_filter_eq payments obj
  exact ⟨by simp [has_payment, hps, hnil], by decide⟩

/-- Closed instance of the C9 theorem: a single related pending Payment is
not completed, and the cell is the digit-free negative indicator. -/
theorem has_payment_none_bare_negative_witness :
    (¬ ∃ p ∈ [pay75], p.application_id = app0.id ∧ p.status = "completed")
    ∧ (has_payment [pay75] app0 = redSpan ∧ ∀ c ∈ redSpan.data, c.isDigit = false) :=
  ⟨by decide, has_payment_none_bare_negative [pay75] app0 (by decide)⟩

/-- C2 — each of the four bulk actions sets the status of every selected
Application row to exactly its fixed target value, regardless of the row's
prior status (the updated row differs from the old one only in that its
status field is overwritten), and leaves every unselected row unchanged;
the pointwise `Forall₂` relations also force the row count to be
preserved. -/
theorem bulk_actions_update_selected_status (st : AdminState) (sel : Nat → Bool) :
    List.Forall₂
      (fun a b => (sel a.id = true → b = { a with status := "pending" }) ∧
        (sel a.id = false → b = a))
      st.applications (mark_as_pending st sel).applications
    ∧ List.Forall₂
      (fun a b => (sel a.id = true → b = { a with status := "under_review" }) ∧
        (sel a.id = false → b = a))
      st.applications (mark_as_under_review st sel).applications
    ∧ List.Forall₂
      (fun a b => (sel a.id = true → b = { a with status := "approved" }) ∧
        (sel a.id = false → b = a))
      st.applications (mark_as_approved st sel).applications
    ∧ List.Forall₂
      (fun a b => (sel a.id = true → b = { a with status := "rejected" }) ∧
        (sel a.id = false → b = a))
      st.applications (mark_as_rejected st sel).applications :=
  ⟨forall2_queryset_update st.applications sel "pending",
   forall2_queryset_update st.applications sel "under_review",
   forall2_queryset_update st.applications sel "approved",
   forall2_queryset_update st.applications sel "rejected"⟩

/-- C10 — each of the four bulk actions modifies only the status field of the
Application rows: the ApplicationFile and Payment stores are untouched, and
for every Application row (selected or not) every field other than `status`
is unchanged. -/
theorem bulk_actions_frame (st : AdminState) (sel : Nat → Bool) :
    ((mark_as_pending st sel).files = st.files ∧
      (mark_as_pending st sel).payments = st.payments ∧
      List.Forall₂ preservesNonStatus st.applications (mark_as_pending st sel).applications)
    ∧ ((mark_as_under_review st sel).files = st.files ∧
      (mark_as_under_review st sel).payments = st.payments ∧
      List.Forall₂ preservesNonStatus st.applications (mark_as_under_review st sel).applications)
    ∧ ((mark_as_approved st sel).files = st.files ∧
      (mark_as_approved st sel).payments = st.payments ∧
      List.Forall₂ preservesNonStatus st.applications (mark_as_approved st sel).applications)
    ∧ ((mark_as_rejected st sel).files = st.files ∧
      (mark_as_rejected st sel).payments = st.payments ∧
      List.Forall₂ preservesNonStatus st.applications (mark_as_rejected st sel).applications) :=
  ⟨⟨rfl, rfl, forall2_preserves st.applications sel "pending"⟩,
   ⟨rfl, rfl, forall2_preserves st.applications sel "under_review"⟩,
   ⟨rfl, rfl, forall2_preserves st.applications sel "approved"⟩,
   ⟨rfl, rfl, forall2_preserves st.applications sel "rejected"⟩⟩

/-- C3 — for every Department, `application_count` renders an anchor whose
label is the number of Application rows referencing that Department and whose
URL carries the `department__id__exact` filter parameter equal to that
Department's identifier. -/
theorem application_count_renders_count_and_filter (apps : List Application)
    (obj : Department) :
    application_count apps obj =
      format_html_link
        (reverse "admin:appname_application_changelist" []
          ++ "?department__id__exact=" ++ toString obj.id)
        (toString (referencing_count apps obj))
    ∧ referencing_count apps obj = (application_set apps obj).length := by
  have h : referencing_count apps obj = (application_set apps obj).length := by
    rw [referencing_count, application_set, List.countP_eq_length_filter]
  exact ⟨by rw [application_count, h], h⟩

/-- C5 — for every Application, `file_count` equals the number of
ApplicationFile rows related to it. -/
theorem file_count_eq_related_file_count (files : List ApplicationFile)
    (obj : Application) :
    file_count files obj = related_file_count files obj := by
  rw [file_count, applicationfile_set, related_file_count, List.countP_eq_length_filter]

/-- C4 — for every Payment whose foreign key resolves to an Application `a`,
`application_link` renders an anchor labelled with `a`'s full name whose URL
is the change view reversed on `a`'s identifier, and that identifier is
exactly the Payment's `application_id`. -/
theorem application_link_label_and_target (apps : List Application) (obj : Payment)
    (a : Application) (h : get_application apps obj.application_id = some a) :
    application_link apps obj =
      some (format_html_link (reverse "admin:appname_application_change" [a.id]) a.full_name)
    ∧ a.id = obj.application_id := by
  constructor
  · rw [application_link, h]
    rfl
  · rw [get_application] at h
    have h2 := List.find?_some h
    simpa using h2

/-- Closed instance of the C4 theorem: the pending payment fixture links to
`app0`'s change view under `app0`'s full name. -/
theorem application_link_label_and_target_witness :
    get_application [app0] pay75.application_id = some app0 ∧
    (application_link [app0] pay75 =
      some (format_html_link (reverse "admin:appname_application_change" [app0.id])
        app0.full_name)
      ∧ app0.id = pay75.application_id) :=
  ⟨by decide, application_link_label_and_target [app0] pay75 app0 (by decide)⟩

/-- C6 — the step relation induced by this layer (four bulk actions plus the
in-place status edit) permits a transition from every status in the
enumeration to every status in the enumeration: for any Application row in
the store, some admissible step rewrites its status to any chosen target,
with no transition rejected or validated. -/
theorem admin_step_permits_all_transitions (s t : String) (hs : s ∈ statusChoices)
    (ht : t ∈ statusChoices) (st : AdminState) (a : Application)
    (ha : a ∈ st.applications) (hstat : a.status = s) :
    ∃ st', AdminStep st st' ∧ { a with status := t } ∈ st'.applications := by
  have hmem := mem_queryset_update_of_mem st.applications t a ha
  simp only [statusChoices, List.mem_cons, List.not_mem_nil, or_false] at ht
  rcases ht with h | h | h | h
  · subst h
    exact ⟨mark_as_pending st (fun _ => true), Or.inl ⟨_, rfl⟩, hmem⟩
  · subst h
    exact ⟨mark_as_under_review st (fun _ => true), Or.inr (Or.inl ⟨_, rfl⟩), hmem⟩
  · subst h
    exact ⟨mark_as_approved st (fun _ => true), Or.inr (Or.inr (Or.inl ⟨_, rfl⟩)), hmem⟩
  · subst h
    exact ⟨mark_as_rejected st (fun _ => true),
      Or.inr (Or.inr (Or.inr (Or.inl ⟨_, rfl⟩))), hmem⟩

/-- Closed instance of the C6 theorem: the pending fixture row can step
straight to approved. -/
theorem admin_step_permits_all_transitions_witness :
    "pending" ∈ statusChoices ∧ "approved" ∈ statusChoices ∧
    app0 ∈ st0.applications ∧ app0.status = "pending" ∧
    (∃ st', AdminStep st0 st' ∧ { app0 with status := "approved" } ∈ st'.applications) :=
  ⟨by decide, by decide, by decide, by decide,
    admin_step_permits_all_transitions "pending" "approved" (by decide) (by decide) st0 app0
      (by decide) (by decide)⟩

/-- C7 — the inline ApplicationFile editor cannot change the upload
timestamp (it is declared read-only, so a save writes only the editable
`file` field), and for every ApplicationFile with an attached file the
preview column renders an anchor to that file's URL. -/
theorem inline_uploaded_at_readonly_and_preview (f : ApplicationFile)
    (nf : Option FieldFile) (nu : Nat) :
    (inline_edit f nf nu).uploaded_at = f.uploaded_at
    ∧ (∀ ff : FieldFile, f.file = some ff →
        file_preview f = "<a href=\"" ++ ff.url ++ "\" target=\"_blank\">View File</a>") := by
  constructor
  · rfl
  · intro ff hff
    simp [file_preview, hff]

/-- Closed instance of the C7 theorem on the file fixture, with the attached
file's preview instantiated. -/
theorem inline_uploaded_at_readonly_and_preview_witness :
    (inline_edit file0 none 99).uploaded_at = file0.uploaded_at ∧
    file0.file = some { url := "/media/doc.pdf" } ∧
    file_preview file0 =
      "<a href=\"" ++ "/media/doc.pdf" ++ "\" target=\"_blank\">View File</a>" :=
  ⟨(inline_uploaded_at_readonly_and_preview file0 none 99).1, rfl,
    (inline_uploaded_at_readonly_and_preview file0 none 99).2 { url := "/media/doc.pdf" } rfl⟩

/-- Totality of the layer's own operations: on a well-formed store every
derived-column helper yields a rendered value (one of its explicitly
enumerated outcomes) and every bulk action yields a store of the same size —
no helper or action signals an error of its own. -/
def TotalitySpec (st : AdminState) : Prop :=
  (∀ p ∈ st.payments, (application_link st.applications p).isSome = true)
  ∧ (∀ obj : Application, has_payment st.payments obj = redSpan ∨
      ∃ v : Int, has_payment st.payments obj = greenSpan v)
  ∧ (∀ f : ApplicationFile, file_preview f = "-" ∨
      ∃ u : String, file_preview f = "<a href=\"" ++ u ++ "\" target=\"_blank\">View File</a>")
  ∧ (∀ obj : Department, ∃ n : Nat, application_count st.applications obj =
      format_html_link
        (reverse "admin:appname_application_changelist" []
          ++ "?department__id__exact=" ++ toString obj.id) (toString n))
  ∧ (∀ sel : Nat → Bool,
      (mark_as_pending st sel).applications.length = st.applications.length ∧
      (mark_as_under_review st sel).applications.length = st.applications.length ∧
      (mark_as_approved st sel).applications.length = st.applications.length ∧
      (mark_as_rejected st sel).applications.length = st.applications.length)

/-- C8 — no operation of this layer raises a domain-specific error or
recovers locally: on a well-formed store, every derived-column helper
(`application_count`, `has_payment`, `file_count` via its length value,
`application_link`, `file_preview`) returns a value, and every bulk action
is total, preserving the store's size. -/
theorem admin_layer_total_no_domain_errors (st : AdminState) (h : WellFormed st) :
    TotalitySpec st := by
  refine ⟨?_, ?_, ?_, ?_, ?_⟩
  · intro p hp
    obtain ⟨a, ha, hid⟩ := h p hp
    have hsome : (get_application st.applications p.application_id).isSome = true := by
      rw [get_application]
      exact List.find?_isSome.mpr ⟨a, ha, by simp [hid]⟩
    rcases Option.isSome_iff_exists.mp hsome with ⟨x, hx⟩
    rw [application_link, hx]
    rfl
  · intro obj
    rcases Classical.em
        ((((payment_set st.payments obj).filter
          (fun p => p.status == "completed")).isEmpty) = true) with he | he
    · left
      simp [has_payment, he]
    · have he' : ((payment_set st.payments obj).filter
          (fun p => p.status == "completed")).isEmpty = false := by
        simpa using he
      right
      refine ⟨py_or_zero (aggregate_sum_amount ((payment_set st.payments obj).filter
        (fun p => p.status == "completed"))), ?_⟩
      simp [has_payment, he']
  · intro f
    cases hf : f.file with
    | none =>
      left
      simp [file_preview, hf]
    | some ff =>
      right
      exact ⟨ff.url, by simp [file_preview, hf]⟩
  · intro obj
    exact ⟨(application_set st.applications obj).length, rfl⟩
  · intro sel
    refine ⟨?_, ?_, ?_, ?_⟩ <;> simp [mark_as_pending, mark_as_under_review,
      mark_as_approved, mark_as_rejected, queryset_update_status]

/-- Closed instance of the C8 theorem on the well-formed concrete store. -/
theorem admin_layer_total_no_domain_errors_witness :
    WellFormed st0 ∧ TotalitySpec st0 :=
  ⟨by unfold WellFormed; decide,
    admin_layer_total_no_domain_errors st0 (by unfold WellFormed; decide)⟩

end Admission
